import Mathlib

/-
Verification of the AI-CARE patient reporting system (app.py and
gsheets_manager.py) against its natural-language specification.

The two Python modules are shallowly embedded below.  Remote spreadsheet
state is modelled as an explicit Store value, the Streamlit data cache as
optional per-table snapshots with integer timestamps, wall-clock time as a
record of the formatted strings the source obtains from datetime.now(),
and randomness as an explicit stream of suffix strings indexed by attempt
number.  Python dictionaries passed to the write operations are modelled
as structures of optional fields, mirroring dict.get with its defaults.
-/

namespace AICare

/-! ## Basic string utilities (structural, kernel-reducible) -/

/-- Boolean test that the first character list is an initial segment of the
second; used to implement substring search as Python does with the in
operator. -/
def leadsWith : List Char → List Char → Bool
  | [], _ => true
  | _ :: _, [] => false
  | a :: as, b :: bs => a == b && leadsWith as bs

/-- Substring occurrence test on character lists. -/
def hasSub (needle : List Char) : List Char → Bool
  | [] => leadsWith needle []
  | c :: cs => leadsWith needle (c :: cs) || hasSub needle cs

/-- Python needle in hay, on strings. -/
def containsSub (hay needle : String) : Bool :=
  hasSub needle.data hay.data

/-- Python any(word in msg for word in words). -/
def containsAny (hay : String) (words : List String) : Bool :=
  words.any (fun w => containsSub hay w)

/-- ASCII lower-casing, the effect of Python str.lower on the inputs the
session engine receives (CJK characters are unaffected). -/
def pyLower (s : String) : String :=
  String.mk (s.data.map Char.toLower)

/-- Python str.strip: drop leading and trailing whitespace. -/
def pyStrip (s : String) : String :=
  String.mk (((s.data.dropWhile Char.isWhitespace).reverse.dropWhile Char.isWhitespace).reverse)

/-- Python s.split(".")[0]: the text before the first decimal point. -/
def truncAtDot (s : String) : String :=
  String.mk (s.data.takeWhile (fun c => c != '.'))

/-- Numeric value of a list of decimal digit characters, as Python int. -/
def digitsVal (cs : List Char) : Nat :=
  cs.foldl (fun n c => 10 * n + (c.toNat - 48)) 0

/-- Parse a nonempty all-digit string to a natural number, as the integer
conversions inside datetime.strptime do; anything else fails. -/
def parseNatDigits (s : String) : Option Nat :=
  if s.data ≠ [] ∧ s.data.all Char.isDigit then some (digitsVal s.data) else none

/-- Split a character list on a separator character (Python str.split). -/
def splitOnChar (sep : Char) : List Char → List (List Char)
  | [] => [[]]
  | c :: rest =>
    let r := splitOnChar sep rest
    if c == sep then [] :: r
    else
      match r with
      | [] => [[c]]
      | h :: t => (c :: h) :: t

/-- Python s[-4:]: the last four characters (the whole string if shorter). -/
def pyLast4 (s : String) : String :=
  String.mk (s.data.drop (s.data.length - 4))

/-- Join a list of strings with a separator (used by the JSON encoder). -/
def joinSep (sep : String) : List String → String
  | [] => ""
  | [x] => x
  | x :: xs => x ++ sep ++ joinSep sep xs

/-- First maximal run of digits in the text, as Python
re.findall(backslash-d+, msg) followed by int(numbers[0]). -/
def firstNumberFrom : List Char → Option Nat
  | [] => none
  | c :: cs =>
    if c.isDigit then some (digitsVal (c :: cs.takeWhile Char.isDigit))
    else firstNumberFrom cs

/-- First number in a string, if any. -/
def firstNumber (s : String) : Option Nat :=
  firstNumberFrom s.data

/-- Every character of the string is a decimal digit. -/
def isDigitsOnly (s : String) : Bool :=
  s.data.all Char.isDigit

/-- Number of decimal digits occurring in the string. -/
def countDigits (s : String) : Nat :=
  (s.data.filter Char.isDigit).length

/-! ## Normalizer (gsheets_manager.normalize_phone / normalize_password) -/

/-- Embedding of gsheets_manager.normalize_phone.  The raw cell value is
modelled as an optional string: none is the Python None branch, and the
string carries the text Python str() would produce for the cell. -/
def normalize_phone (phone : Option String) : String :=
  match phone with
  | none => ""
  | some p =>
    let s := pyStrip p
    let s := if s.data.contains '.' then truncAtDot s else s
    if s.data.length == 9 && !(leadsWith ['0'] s.data) then "0" ++ s else s

/-- Embedding of gsheets_manager.normalize_password. -/
def normalize_password (password : Option String) : String :=
  match password with
  | none => ""
  | some p =>
    let s := pyStrip p
    if s.data.contains '.' then truncAtDot s else s

/-! ## Dates (datetime.date arithmetic as day ordinals) -/

/-- Gregorian leap-year test. -/
def isLeapYear (y : Nat) : Bool :=
  (y % 4 == 0 && y % 100 != 0) || y % 400 == 0

/-- Number of days in a month. -/
def monthLength (leap : Bool) (m : Nat) : Nat :=
  if m == 2 then (if leap then 29 else 28)
  else if m == 4 || m == 6 || m == 9 || m == 11 then 30
  else 31

/-- Days in the year strictly before month m. -/
def daysBeforeMonth (leap : Bool) (m : Nat) : Nat :=
  let base :=
    match m with
    | 1 => 0 | 2 => 31 | 3 => 59 | 4 => 90 | 5 => 120 | 6 => 151
    | 7 => 181 | 8 => 212 | 9 => 243 | 10 => 273 | 11 => 304 | _ => 334
  base + (if leap && m > 2 then 1 else 0)

/-- Leap days occurring in years strictly before year y. -/
def leapsBefore (y : Nat) : Nat :=
  (y - 1) / 4 + (y - 1) / 400 - (y - 1) / 100

/-- Day ordinal of a calendar date (days since 0001-01-01), the quantity
whose differences datetime.date subtraction returns in days. -/
def dateOrd (y m d : Nat) : Nat :=
  365 * (y - 1) + leapsBefore y + daysBeforeMonth (isLeapYear y) m + (d - 1)

/-- Embedding of datetime.strptime(s, "%Y-%m-%d").date(): three dash
separated numeric fields with calendar validation, returning the day
ordinal; none models the ValueError branch. -/
def parseDate (s : String) : Option Nat :=
  match (splitOnChar '-' s.data).map String.mk with
  | [ys, ms, ds] =>
    match parseNatDigits ys, parseNatDigits ms, parseNatDigits ds with
    | some y, some m, some d =>
      if 1 ≤ y ∧ 1 ≤ m ∧ m ≤ 12 ∧ 1 ≤ d ∧ d ≤ monthLength (isLeapYear y) m then
        some (dateOrd y m d)
      else none
    | _, _, _ => none
  | _ => none

/-- Embedding of the post_op_day computation inside
gsheets_manager.get_all_patients_cached: 0 when the surgery_date cell is
empty or fails to parse, otherwise today minus the surgery date, with no
clamping. -/
def patientPostOpDay (todayOrd : Nat) (surgery_date : String) : Int :=
  if surgery_date == "" then 0
  else
    match parseDate surgery_date with
    | some d => (todayOrd : Int) - (d : Int)
    | none => 0

/-- Embedding of app.calculate_post_op_day: like the read-side computation
but clamped at zero with max(0, days). -/
def calculate_post_op_day (todayOrd : Nat) (surgery_date_str : String) : Int :=
  if surgery_date_str == "" then 0
  else
    match parseDate surgery_date_str with
    | some d => max 0 ((todayOrd : Int) - (d : Int))
    | none => 0

/-! ## Wall-clock time

The source calls datetime.now() and formats it in several ways.  A Time
value packages the formatted strings one such call yields, plus the hour
and a monotone tick used for cache TTL comparisons. -/

structure Time where
  ymdHms : String
  ymd : String
  iso : String
  mdhm : String
  md : String
  hm : String
  hour : Nat
  tick : Nat
deriving Repr, DecidableEq

/-! ## Reports table -/

/-- A spreadsheet cell holding the symptoms field.  The backing store is
dynamically typed: save_report writes a JSON text, while a row that was
never written by save_report could hold a structured value; the render
code branches on isinstance(symptoms, str), which this type mirrors. -/
inductive SymVal where
  | str : String → SymVal
  | list : List String → SymVal
deriving Repr, DecidableEq

/-- Minimal JSON string literal, as json.dumps renders the plain symptom
tags the session produces (ensure_ascii=False, no escapes needed). -/
def jsonStr (s : String) : String :=
  "\"" ++ s ++ "\""

/-- Embedding of json.dumps on a list of strings. -/
def jsonEncodeList (l : List String) : String :=
  "[" ++ joinSep ", " (l.map jsonStr) ++ "]"

/-- A persisted row of the Reports worksheet (REPORT_COLUMNS order). -/
structure Report where
  report_id : String
  patient_id : String
  patient_name : String
  date : String
  timestamp : String
  overall_score : Nat
  symptoms : SymVal
  messages_count : Nat
  alert_level : String
  alert_handled : String
  handled_by : String
  handled_at : String
deriving Repr, DecidableEq

/-- The report_data dictionary passed to save_report; optional fields
model dict.get with its defaults. -/
structure ReportData where
  patient_id : Option String
  patient_name : Option String
  date : Option String
  timestamp : Option String
  overall_score : Option Nat
  symptoms : Option (List String)
  messages_count : Option Nat
  alert_level : Option String
deriving Repr, DecidableEq

/-- The row save_report builds before appending: alert_level comes from
the input dictionary with default green, alert_handled is the literal N,
symptoms are JSON-serialized. -/
def mkReportRow (d : ReportData) (nw : Time) : Report :=
  { report_id := "R" ++ nw.ymdHms
    patient_id := d.patient_id.getD ""
    patient_name := d.patient_name.getD ""
    date := d.date.getD nw.ymd
    timestamp := d.timestamp.getD nw.iso
    overall_score := d.overall_score.getD 0
    symptoms := SymVal.str (jsonEncodeList (d.symptoms.getD []))
    messages_count := d.messages_count.getD 0
    alert_level := d.alert_level.getD "green"
    alert_handled := "N"
    handled_by := ""
    handled_at := "" }

/-! ## Patients table -/

/-- A persisted row of the Patients worksheet (PATIENT_COLUMNS order);
cells are text, including post_op_day which create_patient writes as 0. -/
structure PatientRec where
  patient_id : String
  name : String
  phone : String
  password : String
  age : String
  gender : String
  surgery_type : String
  surgery_date : String
  diagnosis : String
  medical_record : String
  status : String
  post_op_day : String
  consent_agreed : String
  consent_time : String
  registered_at : String
  clinical_data : String
  notes : String
deriving Repr, DecidableEq

/-- A patient record as returned by get_all_patients_cached: phone and
password normalized in place and post_op_day recomputed as an integer. -/
structure PatientView where
  patient_id : String
  name : String
  phone : String
  password : String
  age : String
  gender : String
  surgery_type : String
  surgery_date : String
  diagnosis : String
  medical_record : String
  status : String
  post_op_day : Int
  consent_agreed : String
  consent_time : String
  registered_at : String
  clinical_data : String
  notes : String
deriving Repr, DecidableEq

/-- The per-record transformation get_all_patients_cached applies after
reading the Patients worksheet. -/
def patientView (todayOrd : Nat) (r : PatientRec) : PatientView :=
  { patient_id := r.patient_id
    name := r.name
    phone := normalize_phone (some r.phone)
    password := normalize_password (some r.password)
    age := r.age
    gender := r.gender
    surgery_type := r.surgery_type
    surgery_date := r.surgery_date
    diagnosis := r.diagnosis
    medical_record := r.medical_record
    status := r.status
    post_op_day := patientPostOpDay todayOrd r.surgery_date
    consent_agreed := r.consent_agreed
    consent_time := r.consent_time
    registered_at := r.registered_at
    clinical_data := r.clinical_data
    notes := r.notes }

/-- The patient_data dictionary passed to create_patient. -/
structure PatientData where
  patient_id : Option String
  name : Option String
  phone : Option String
  password : Option String
  age : Option String
  gender : Option String
  surgery_type : Option String
  surgery_date : Option String
  diagnosis : Option String
  medical_record : Option String
  status : Option String
  post_op_day : Option String
  consent_agreed : Option String
  consent_time : Option String
  registered_at : Option String
  clinical_data : Option String
  notes : Option String
deriving Repr, DecidableEq

/-- An all-empty patient row, used as the default for indexed access. -/
def emptyPatient : PatientRec :=
  { patient_id := "", name := "", phone := "", password := "", age := ""
    gender := "", surgery_type := "", surgery_date := "", diagnosis := ""
    medical_record := "", status := "", post_op_day := "", consent_agreed := ""
    consent_time := "", registered_at := "", clinical_data := "", notes := "" }

/-! ## Store and cache

clear_cache calls st.cache_data.clear(), which drops every cached table
at once, so each write operation resets both snapshots. -/

/-- The two worksheets the claims touch. -/
structure Store where
  patients : List PatientRec
  reports : List Report
deriving Repr, DecidableEq

/-- Remote store plus the Streamlit data-cache snapshots (value and the
tick at which the snapshot was taken). -/
structure SysState where
  store : Store
  cacheReports : Option (List Report × Nat)
  cachePatients : Option (List PatientView × Nat)
deriving Repr, DecidableEq

/-- Cache TTL in seconds (CACHE_TTL = 60). -/
def CACHE_TTL : Nat := 60

/-- Embedding of get_all_reports_cached: serve a snapshot younger than the
TTL, otherwise read the worksheet and remember the result. -/
def readReports (t : Nat) (st : SysState) : List Report × SysState :=
  match st.cacheReports with
  | some s =>
    if t - s.2 < CACHE_TTL then (s.1, st)
    else (st.store.reports, { st with cacheReports := some (st.store.reports, t) })
  | none => (st.store.reports, { st with cacheReports := some (st.store.reports, t) })

/-- Embedding of get_all_patients_cached: like readReports but the cached
value is the transformed record list. -/
def readPatients (todayOrd t : Nat) (st : SysState) : List PatientView × SysState :=
  match st.cachePatients with
  | some s =>
    if t - s.2 < CACHE_TTL then (s.1, st)
    else
      (st.store.patients.map (patientView todayOrd),
       { st with cachePatients := some (st.store.patients.map (patientView todayOrd), t) })
  | none =>
    (st.store.patients.map (patientView todayOrd),
     { st with cachePatients := some (st.store.patients.map (patientView todayOrd), t) })

/-! ## Report operations (gsheets_manager) -/

/-- Embedding of save_report on the connected path: build the row, append
it to the Reports worksheet, clear every cache, return the report id.
The function consults no existing rows. -/
def save_report (d : ReportData) (nw : Time) (st : SysState) : Option String × SysState :=
  let row := mkReportRow d nw
  (some ("R" ++ nw.ymdHms),
   { store := { patients := st.store.patients, reports := st.store.reports ++ [row] }
     cacheReports := none
     cachePatients := none })

/-- Embedding of get_patient_reports: filter the cached read by patient. -/
def get_patient_reports (pid : String) (t : Nat) (st : SysState) :
    List Report × SysState :=
  let rs := readReports t st
  (rs.1.filter (fun r => r.patient_id == pid), rs.2)

/-- Embedding of check_today_reported: true iff some report of the patient
carries today as its date. -/
def check_today_reported (pid today : String) (t : Nat) (st : SysState) :
    Bool × SysState :=
  let rs := get_patient_reports pid t st
  (rs.1.any (fun r => r.date == today), rs.2)

/-- Number of persisted reports for a given patient and calendar day. -/
def countReportsFor (st : SysState) (pid date : String) : Nat :=
  (st.store.reports.filter (fun r => r.patient_id == pid && r.date == date)).length

/-- Embedding of handle_alert: locate the first report with the given id,
set the three handling cells, clear the caches; false when absent. -/
def handle_alert (report_id handler : String) (nw : Time) (st : SysState) :
    Bool × SysState :=
  match st.store.reports.findIdx? (fun r => r.report_id == report_id) with
  | none => (false, st)
  | some i =>
    let r := st.store.reports.getD i (mkReportRow ⟨none, none, none, none, none, none, none, none⟩ nw)
    let r2 := { r with alert_handled := "Y", handled_by := handler, handled_at := nw.iso }
    (true,
     { store := { patients := st.store.patients, reports := st.store.reports.set i r2 }
       cacheReports := none
       cachePatients := none })

/-! ## Patient-ID issuance and patient writes (gsheets_manager) -/

/-- The candidate id produced at a given attempt of the generation loop:
attempt 0 is last-4-digits plus month-day-hour-minute, attempts 1 to 9
add a random 3-digit suffix after month-day, attempts from 10 use a
random 6-character alphanumeric suffix.  The random draw of each attempt
is supplied by the stream rand. -/
def genAttemptId (phone : String) (nw : Time) (rand : Nat → String) (attempt : Nat) : String :=
  if attempt == 0 then "P" ++ pyLast4 phone ++ nw.mdhm
  else if attempt < 10 then "P" ++ pyLast4 phone ++ nw.md ++ rand attempt
  else "P" ++ rand attempt

/-- Embedding of generate_unique_patient_id: normalize the phone, try 100
candidates in order returning the first one absent from the existing-id
set, and after 100 failures return a full-timestamp id without any
membership check. -/
def generate_unique_patient_id (existing : List String) (phone0 : String)
    (nw : Time) (rand : Nat → String) : String :=
  match (List.range 100).find?
      (fun a => !(existing.contains (genAttemptId (normalize_phone (some phone0)) nw rand a))) with
  | some a => genAttemptId (normalize_phone (some phone0)) nw rand a
  | none => "P" ++ nw.ymdHms

/-- The Patients row create_patient appends, given the id it generated:
the patient_id field of the input dictionary is never consulted, the
phone is normalized, post_op_day is written as 0, and both consent_time
and registered_at are the current timestamp. -/
def mkPatientRow (pid : String) (pd : PatientData) (nw : Time) : PatientRec :=
  { patient_id := pid
    name := pd.name.getD ""
    phone := normalize_phone (some (pd.phone.getD ""))
    password := pd.password.getD ""
    age := pd.age.getD ""
    gender := pd.gender.getD ""
    surgery_type := pd.surgery_type.getD "待設定"
    surgery_date := pd.surgery_date.getD ""
    diagnosis := pd.diagnosis.getD ""
    medical_record := pd.medical_record.getD ""
    status := pd.status.getD "pending_setup"
    post_op_day := "0"
    consent_agreed := pd.consent_agreed.getD "Y"
    consent_time := nw.iso
    registered_at := nw.iso
    clinical_data := ""
    notes := "" }

/-- Embedding of create_patient on the connected path: generate a fresh id
against the ids currently in the worksheet, append the row, clear the
caches, return the generated id. -/
def create_patient (pd : PatientData) (nw : Time) (rand : Nat → String)
    (st : SysState) : Option String × SysState :=
  let pid := generate_unique_patient_id (st.store.patients.map PatientRec.patient_id)
      (pd.phone.getD "") nw rand
  (some pid,
   { store := { patients := st.store.patients ++ [mkPatientRow pid pd nw]
                reports := st.store.reports }
     cacheReports := none
     cachePatients := none })

/-- Effect of one update_cell call of update_patient: set the named column
of the row; keys outside PATIENT_COLUMNS are ignored. -/
def applyUpdate (r : PatientRec) (kv : String × String) : PatientRec :=
  match kv.1 with
  | "patient_id" => { r with patient_id := kv.2 }
  | "name" => { r with name := kv.2 }
  | "phone" => { r with phone := kv.2 }
  | "password" => { r with password := kv.2 }
  | "age" => { r with age := kv.2 }
  | "gender" => { r with gender := kv.2 }
  | "surgery_type" => { r with surgery_type := kv.2 }
  | "surgery_date" => { r with surgery_date := kv.2 }
  | "diagnosis" => { r with diagnosis := kv.2 }
  | "medical_record" => { r with medical_record := kv.2 }
  | "status" => { r with status := kv.2 }
  | "post_op_day" => { r with post_op_day := kv.2 }
  | "consent_agreed" => { r with consent_agreed := kv.2 }
  | "consent_time" => { r with consent_time := kv.2 }
  | "registered_at" => { r with registered_at := kv.2 }
  | "clinical_data" => { r with clinical_data := kv.2 }
  | "notes" => { r with notes := kv.2 }
  | _ => r

/-- Embedding of update_patient: update the first row whose patient_id
matches, cell by cell, then clear the caches; false when no row matches. -/
def update_patient (pid : String) (updates : List (String × String))
    (st : SysState) : Bool × SysState :=
  match st.store.patients.findIdx? (fun r => r.patient_id == pid) with
  | none => (false, st)
  | some i =>
    let r := (st.store.patients.getD i emptyPatient)
    let r2 := updates.foldl applyUpdate r
    (true,
     { store := { patients := st.store.patients.set i r2, reports := st.store.reports }
       cacheReports := none
       cachePatients := none })

/-- The patient id the registration page of app.py computes locally and
stores into the session before calling create_patient: last four
characters of the raw phone plus month-day. -/
def appLocalPatientId (phone : String) (nw : Time) : String :=
  "P" ++ pyLast4 phone ++ nw.md

/-! ## Triage classification and report rendering -/

/-- Modelled from the spec: the TriageClassifier pure function classify
(green for 0-3, yellow for 4-6, red for 7-10).  No such function exists
in the source; score thresholds appear only inline in reply texts and in
the records-page icons, so this definition follows the words of the spec
and serves as the comparison point for the write-time alert level. -/
def classifySpec (score : Nat) : String :=
  if score ≤ 3 then "green" else if score ≤ 6 then "yellow" else "red"

/-- Embedding of the symptoms handling in render_my_records: a stored
string value, well-formed JSON or not, is replaced by the empty list; a
structured value is kept. -/
def renderSymptoms (v : SymVal) : List String :=
  match v with
  | SymVal.str _ => []
  | SymVal.list l => l

/-! ## Session engine (app.py) -/

/-- One chat bubble of st.session_state.messages. -/
structure Msg where
  role : String
  content : String
  time : String
deriving Repr, DecidableEq

/-- The per-conversation Streamlit session state the claims touch. -/
structure SessionState where
  messages : List Msg
  conversation_history : List (String × String)
  current_score : Nat
  symptoms_reported : List String
  report_completed : Bool
deriving Repr, DecidableEq

/-- Fresh session, as initialized at the top of app.py. -/
def sessionInit : SessionState :=
  { messages := [], conversation_history := [], current_score := 0
    symptoms_reported := [], report_completed := false }

/-- Completion keywords of get_fallback_response. -/
def completionWords : List String := ["沒有", "沒了", "結束", "完成", "都沒", "沒其他"]

/-- Positive-mood keywords of get_fallback_response. -/
def positiveWords : List String := ["不錯", "還好", "好", "正常", "沒事", "很好"]

/-- Breathlessness keywords of get_fallback_response. -/
def breathWords : List String := ["喘", "呼吸", "氣"]

/-- Pain keywords of get_fallback_response. -/
def painWords : List String := ["痛", "疼"]

/-- Fatigue keywords of get_fallback_response. -/
def fatigueWords : List String := ["累", "疲", "倦", "沒力"]

/-- Reply of the completion branch. -/
def completionText : String :=
  "好的，今日回報完成！✅\n\n感謝您的回報，祝您有美好的一天！\n\n如有任何不適加重，請隨時回來告訴我們。"

/-- Reply of the positive branch. -/
def positiveText : String :=
  "太好了，很高興您今天感覺不錯！😊\n\n請問還有其他想告訴我的嗎？或是今天回報就到這裡？"

/-- Reply for a score of at least seven. -/
def highText (score : Nat) : String :=
  "收到，" ++ toString score ++ " 分是比較嚴重的狀況。\n\n⚠️ 我已經通知個案管理師，她會盡快與您聯繫。\n\n請問還有其他不舒服嗎？"

/-- Reply for a score between four and six. -/
def midText (score : Nat) : String :=
  "收到，" ++ toString score ++ " 分屬於中度不適。\n\n建議您多休息，如有加重請告知。\n\n請問還有其他不舒服嗎？"

/-- Reply for a score below four. -/
def lowText (score : Nat) : String :=
  "收到，" ++ toString score ++ " 分是輕微的程度。✅\n\n請繼續保持，還有其他要回報的嗎？"

/-- Reply of the breathlessness branch. -/
def breathText : String :=
  "了解，您有呼吸方面的問題。\n\n可以用 0-10 分描述喘的程度嗎？"

/-- Reply of the pain branch. -/
def painText : String :=
  "了解，您有疼痛的問題。\n\n可以用 0-10 分描述疼痛程度嗎？"

/-- Reply of the fatigue branch. -/
def fatigueText : String :=
  "了解，您覺得疲勞。\n\n可以用 0-10 分描述疲勞程度嗎？"

/-- Reply of the default branch. -/
def defaultText : String :=
  "收到您的回報。\n\n還有其他想告訴我的嗎？或是今天回報就到這裡？"

/-- The apology get_ai_response returns when the model call raises. -/
def apologyText : String :=
  "抱歉，系統暫時無法回應。請稍後再試。"

/-- Embedding of get_fallback_response.  The branches are checked in
source order: completion phrases (setting report_completed), positive
phrases, an explicit number (folded into current_score with min 10 and
running max), then symptom keywords appending their tags, then a default
reply.  The returned pair is the reply text and the updated session. -/
def get_fallback_response (msg0 : String) (st : SessionState) : String × SessionState :=
  let msg := pyLower msg0
  if containsAny msg completionWords then
    (completionText, { st with report_completed := true })
  else if containsAny msg positiveWords then
    (positiveText, st)
  else
    match firstNumber msg with
    | some n =>
      let score := min n 10
      let st2 := { st with current_score := max st.current_score score }
      if score ≥ 7 then (highText score, st2)
      else if score ≥ 4 then (midText score, st2)
      else (lowText score, st2)
    | none =>
      if containsAny msg breathWords then
        (breathText, { st with symptoms_reported := st.symptoms_reported ++ ["呼吸困難"] })
      else if containsAny msg painWords then
        (painText, { st with symptoms_reported := st.symptoms_reported ++ ["疼痛"] })
      else if containsAny msg fatigueWords then
        (fatigueText, { st with symptoms_reported := st.symptoms_reported ++ ["疲勞"] })
      else (defaultText, st)

/-- The three ways a get_ai_response call can go: the OpenAI client is
available and returns a reply, the client raises (apology string), or
OpenAI is unavailable and the rule-based fallback runs.  The model reply
is an input because the remote model is an external collaborator. -/
inductive ResponderKind where
  | openaiOk : String → ResponderKind
  | openaiErr : ResponderKind
  | unavailable : ResponderKind
deriving Repr, DecidableEq

/-- Embedding of get_ai_response.  On the OpenAI paths the function only
builds the prompt from the history and returns the reply or the apology;
it performs no session-state update.  Only the unavailable path runs
get_fallback_response. -/
def get_ai_response (r : ResponderKind) (msg : String) (st : SessionState) :
    String × SessionState :=
  match r with
  | ResponderKind.openaiOk reply => (reply, st)
  | ResponderKind.openaiErr => (apologyText, st)
  | ResponderKind.unavailable => get_fallback_response msg st

/-- Time-of-day greeting word of initialize_chat. -/
def greetingWord (hour : Nat) : String :=
  if hour < 12 then "早安" else if hour < 18 then "午安" else "晚安"

/-- Welcome message of initialize_chat. -/
def welcomeMsg (greeting pname : String) (postOp : Int) : String :=
  greeting ++ "，" ++ pname ++ "！😊\n\n我是您的健康小助手，今天是您術後第 "
    ++ toString postOp ++ " 天。\n\n現在讓我們來做今日健康回報，請問您今天整體感覺如何？"

/-- Embedding of initialize_chat: append the welcome bubble when the
message list is empty. -/
def initialize_chat (pname : String) (postOp : Int) (nw : Time)
    (st : SessionState) : SessionState :=
  if st.messages.isEmpty then
    { st with messages :=
        st.messages ++ [⟨"assistant", welcomeMsg (greetingWord nw.hour) pname postOp, nw.hm⟩] }
  else st

/-! ## The save call of process_input -/

/-- Outcome of the save step of process_input. -/
inductive SaveOutcome where
  | notAttempted : SaveOutcome
  | typeErr : SaveOutcome
  | saved : String → SaveOutcome
deriving Repr, DecidableEq

/-- Number of positional arguments app.process_input passes to
save_report: the patient id, the patient name, and the report dictionary. -/
def appSaveCallArgCount : Nat := 3

/-- Number of parameters gsheets_manager.save_report declares: the single
report_data dictionary. -/
def saveReportParamCount : Nat := 1

/-- The save step process_input performs once the report is complete.  The
call site supplies three positional arguments while save_report takes one,
so the Python call raises TypeError before any row is appended; the
guarded branch records the payload the call site builds, which would
reach save_report only if the arities agreed. -/
def attemptAppSave (sess : SessionState) (pid pname : String) (nw : Time)
    (sys : SysState) : SaveOutcome × SysState :=
  if appSaveCallArgCount == saveReportParamCount then
    let rd : ReportData :=
      { patient_id := some pid
        patient_name := some pname
        date := none
        timestamp := none
        overall_score := some sess.current_score
        symptoms := some sess.symptoms_reported
        messages_count := some sess.messages.length
        alert_level := none }
    let r := save_report rd nw sys
    (match r.1 with
     | some rid => SaveOutcome.saved rid
     | none => SaveOutcome.notAttempted, r.2)
  else (SaveOutcome.typeErr, sys)

/-- Application state threaded through process_input: the session plus the
shared store and cache. -/
structure AppState where
  session : SessionState
  sys : SysState
deriving Repr, DecidableEq

/-- Embedding of process_input: ignore blank input, append the user turn,
obtain the reply through get_ai_response, append the assistant turn, and
when the session is complete (and the sheets module loaded) perform the
save step.  The second component reports what the save step did. -/
def process_input (r : ResponderKind) (gsheets : Bool) (pid pname : String)
    (nw : Time) (input : String) (st : AppState) : AppState × SaveOutcome :=
  if pyStrip input == "" then (st, SaveOutcome.notAttempted)
  else
    let sess :=
      { st.session with
          messages := st.session.messages ++ [⟨"user", input, nw.hm⟩]
          conversation_history := st.session.conversation_history ++ [("user", input)] }
    let rs := get_ai_response r input sess
    let sess2 :=
      { rs.2 with
          messages := rs.2.messages ++ [⟨"assistant", rs.1, nw.hm⟩]
          conversation_history := rs.2.conversation_history ++ [("assistant", rs.1)] }
    if sess2.report_completed && gsheets then
      let so := attemptAppSave sess2 pid pname nw st.sys
      ({ session := sess2, sys := so.2 }, so.1)
    else ({ session := sess2, sys := st.sys }, SaveOutcome.notAttempted)

/-- Run a list of user turns through process_input, reporting the final
state and the outcome of the last save step. -/
def runTurns (r : ResponderKind) (pid pname : String) (nw : Time)
    (inputs : List String) (st : AppState) : AppState × SaveOutcome :=
  inputs.foldl (fun acc inp => process_input r true pid pname nw inp acc.1)
    (st, SaveOutcome.notAttempted)

/-! ## Concrete instances used by the theorems -/

/-- A sample clock value: 2026-10-12 08:30:00. -/
def timeEx : Time :=
  { ymdHms := "20261012083000", ymd := "2026-10-12", iso := "2026-10-12T08:30:00"
    mdhm := "10120830", md := "1012", hm := "08:30", hour := 8, tick := 0 }

/-- Empty store with empty caches. -/
def sysInit : SysState :=
  { store := { patients := [], reports := [] }, cacheReports := none, cachePatients := none }

/-- A report dictionary with a severe score and no alert_level key, as the
call site in process_input builds it. -/
def d7 : ReportData :=
  { patient_id := some "P1", patient_name := some "王大明", date := some "2026-10-12"
    timestamp := none, overall_score := some 7, symptoms := some ["呼吸困難"]
    messages_count := some 6, alert_level := none }

/-- The same dictionary with a mild score. -/
def d2 : ReportData :=
  { d7 with overall_score := some 2 }

/-- A random stream under which every generation attempt repeats the same
suffix: 3 digits below attempt 10 and 6 characters afterwards. -/
def randEx : Nat → String :=
  fun a => if a < 10 then "000" else "000000"

/-- An existing-id set containing every candidate the generation loop can
produce for phone 0912345678 under timeEx and randEx, together with the
post-loop timestamp fallback. -/
def existingEx : List String :=
  ["P567810120830", "P56781012000", "P000000", "P20261012083000"]

/-- A registration dictionary as render_registration builds it, including
the locally computed patient_id the store-side function ignores. -/
def pdEx : PatientData :=
  { patient_id := some "P56781012", name := some "王大明", phone := some "0912345678"
    password := some "1234", age := some "65", gender := some "男"
    surgery_type := some "待設定", surgery_date := some "", diagnosis := some "肺癌術後"
    medical_record := some "", status := some "pending_setup", post_op_day := some "0"
    consent_agreed := some "Y", consent_time := some "2026-10-12T08:30:00"
    registered_at := some "2026-10-12T08:30:00", clinical_data := some "", notes := some "" }

/-- A stored patient row used by the cache-coherence witness. -/
def pRec1 : PatientRec :=
  { patient_id := "P1", name := "王大明", phone := "0912345678", password := "1234"
    age := "65", gender := "男", surgery_type := "胸腔鏡手術", surgery_date := "2026-10-01"
    diagnosis := "肺癌術後", medical_record := "", status := "normal", post_op_day := "0"
    consent_agreed := "Y", consent_time := "", registered_at := "", clinical_data := ""
    notes := "" }

/-- Store holding one patient, with empty caches. -/
def sysP : SysState :=
  { store := { patients := [pRec1], reports := [] }, cacheReports := none, cachePatients := none }

/-- Store holding one report (the row d7 produces), with empty caches. -/
def sysR : SysState :=
  { store := { patients := [], reports := [mkReportRow d7 timeEx] }
    cacheReports := none, cachePatients := none }

/-- A patient row whose surgery date lies in the future relative to the
day ordinal of 2026-10-12. -/
def pRecFuture : PatientRec :=
  { pRec1 with surgery_date := "2026-10-13" }

/-- Store holding the future-dated patient. -/
def sysFuture : SysState :=
  { store := { patients := [pRecFuture], reports := [] }
    cacheReports := none, cachePatients := none }

/-- Day ordinal of 2026-10-12, the sample current day. -/
def todayEx : Nat := dateOrd 2026 10 12

/-- Fresh application state: fresh session over the empty store. -/
def appInitEx : AppState := { session := sessionInit, sys := sysInit }

/-- The three user turns of the session-flow scenario of the spec. -/
def c4Turns : List String := ["今天覺得有點喘", "7分", "沒有其他了"]

/-- Result of running the scenario turns through process_input with the
rule-based fallback responder, starting from a fresh session. -/
def c4Result : AppState × SaveOutcome :=
  runTurns ResponderKind.unavailable "P1" "王大明" timeEx c4Turns appInitEx

/-! ## Theorems -/

/-- C1, counterexample.  After one save_report for patient P1 on
2026-10-12, check_today_reported already answers true, yet a second
save_report for the same patient and day still succeeds with a report id
and leaves two persisted Reports for that day — refuting the claim that
save_report re-checks check_today_reported and fails with AlreadyReported
on the second call. -/
theorem save_report_no_dup_guard_cex :
    (check_today_reported "P1" "2026-10-12" 0 (save_report d7 timeEx sysInit).2).1 = true
    ∧ (save_report d7 timeEx (save_report d7 timeEx sysInit).2).1 = some "R20261012083000"
    ∧ countReportsFor (save_report d7 timeEx (save_report d7 timeEx sysInit).2).2
        "P1" "2026-10-12" = 2 := by
  decide

/-- C1, amended.  save_report performs no duplicate check at all: for any
input dictionary, clock, and prior state it returns a report id and
appends exactly one row, independently of the rows already present, so
the count of reports for the row it writes grows by one on every call
(and hence by two over two calls for the same patient and day). -/
theorem save_report_always_appends (d : ReportData) (nw : Time) (st : SysState) :
    (save_report d nw st).1 = some ("R" ++ nw.ymdHms)
    ∧ (save_report d nw st).2.store.reports = st.store.reports ++ [mkReportRow d nw]
    ∧ countReportsFor (save_report d nw st).2 (mkReportRow d nw).patient_id
        (mkReportRow d nw).date
      = countReportsFor st (mkReportRow d nw).patient_id (mkReportRow d nw).date + 1 := by
  refine ⟨rfl, rfl, ?_⟩
  simp [countReportsFor, save_report, List.filter_append]

/-- C2, counterexample.  A report submitted with overall score 7 and no
alert_level key is persisted with alert_level green although the claimed
classification of 7 is red, and a report whose claimed classification is
green (score 2) is persisted with alert_handled N rather than empty. -/
theorem alert_fields_cex :
    (mkReportRow d7 timeEx).overall_score = 7
    ∧ (mkReportRow d7 timeEx).alert_level = "green"
    ∧ classifySpec 7 = "red"
    ∧ (mkReportRow d2 timeEx).overall_score = 2
    ∧ classifySpec 2 = "green"
    ∧ (mkReportRow d2 timeEx).alert_handled = "N" := by
  decide

/-- C2, amended.  The persisted alert_level is the value the caller put in
the dictionary, with default green, and is independent of the overall
score; the persisted alert_handled is the constant N for every report,
whatever the level. -/
theorem alert_fields_from_caller (d : ReportData) (nw : Time) (s : Option Nat) :
    (mkReportRow d nw).alert_level = d.alert_level.getD "green"
    ∧ (mkReportRow { d with overall_score := s } nw).alert_level
        = (mkReportRow d nw).alert_level
    ∧ (mkReportRow d nw).alert_handled = "N" := by
  exact ⟨rfl, rfl, rfl⟩

/-- C3, counterexample.  On the user turn 7分 from a fresh session, the
rule-based fallback responder folds the score into current_score while
the model-based responder leaves the session unchanged, so the resulting
session states differ — refuting the claim that the state transitions are
the same for both responders. -/
theorem responder_state_divergence_cex :
    (get_ai_response (ResponderKind.openaiOk "收到") "7分" sessionInit).2.current_score = 0
    ∧ (get_fallback_response "7分" sessionInit).2.current_score = 7
    ∧ (get_ai_response (ResponderKind.openaiOk "收到") "7分" sessionInit).2
        ≠ (get_fallback_response "7分" sessionInit).2 := by
  decide

/-- C3, amended.  Score extraction, symptom accumulation and completion
detection live only in the rule-based fallback: when the OpenAI responder
produces the reply (or raises and yields the apology) get_ai_response
returns the session state untouched, and only the unavailable path runs
get_fallback_response, so the choice of responder does affect the session
state transitions, not merely the reply text. -/
theorem openai_responder_no_state_change (reply msg : String) (st : SessionState) :
    (get_ai_response (ResponderKind.openaiOk reply) msg st).2 = st
    ∧ (get_ai_response ResponderKind.openaiErr msg st).2 = st
    ∧ get_ai_response ResponderKind.unavailable msg st = get_fallback_response msg st := by
  exact ⟨rfl, rfl, rfl⟩

/-- C4, code bug.  Running the scenario turns through process_input with
the fallback responder accumulates the expected session state (score 7,
breathlessness tag, completed), but the save step ends in TypeError —
process_input passes three positional arguments to the one-parameter
save_report — so no Report at all is persisted for the day, instead of
the one red report the claim describes. -/
theorem session_scenario_trace :
    c4Result.1.session.current_score = 7
    ∧ c4Result.1.session.symptoms_reported = ["呼吸困難"]
    ∧ c4Result.1.session.report_completed = true
    ∧ c4Result.2 = SaveOutcome.typeErr
    ∧ c4Result.1.sys.store.reports = [] := by
  decide

/-- C5, counterexample.  When every candidate of the 100-attempt loop is
already taken, generate_unique_patient_id returns the post-loop
timestamp fallback without checking it, and that id can itself collide
with the existing-id set read at the start of the call — refuting the
claim that the returned id is never a member of that set. -/
theorem issue_id_fallback_collision_cex :
    generate_unique_patient_id existingEx "0912345678" timeEx randEx = "P20261012083000"
    ∧ existingEx.contains (generate_unique_patient_id existingEx "0912345678" timeEx randEx)
        = true := by
  decide

/-- C5, amended.  Each of the 100 loop candidates is indeed checked
against the existing-id set before being returned, so the result is
either absent from that set or it is the unchecked post-loop timestamp
fallback P plus the full timestamp. -/
theorem issue_id_checked_or_timestamp_fallback (existing : List String)
    (phone : String) (nw : Time) (rand : Nat → String) :
    existing.contains (generate_unique_patient_id existing phone nw rand) = false
    ∨ generate_unique_patient_id existing phone nw rand = "P" ++ nw.ymdHms := by
  unfold generate_unique_patient_id
  split
  case h_1 a heq =>
    left
    have h := List.find?_some heq
    simpa using h
  case h_2 heq =>
    right
    rfl

/-- C6, counterexample.  normalize_phone performs no digit filtering and
its leading-zero rule counts characters, not digits: the input
a23456789 contains only eight digits, yet because its length is nine and
it lacks a leading zero the function prepends one and returns the
non-digit string 0a23456789 — refuting the digits-only claim. -/
theorem normalize_phone_not_digits_only_cex :
    normalize_phone (some "a23456789") = "0a23456789"
    ∧ isDigitsOnly (normalize_phone (some "a23456789")) = false
    ∧ countDigits "a23456789" = 8 := by
  decide

/-- C6, amended.  normalize_phone coerces to text, strips surrounding
whitespace, truncates at the first decimal point, and prepends a zero
exactly when the resulting string has length nine and no leading zero —
with no digit filtering, so non-digit characters pass through; and the
three normalization round-trip examples hold as given. -/
theorem normalization_examples :
    normalize_phone (some "912345678") = "0912345678"
    ∧ normalize_phone (some "0912345678.0") = "0912345678"
    ∧ normalize_password (some "1234.0") = "1234"
    ∧ normalize_phone (some "a23456789") = "0a23456789"
    ∧ normalize_phone (some " 0912345678 ") = "0912345678" := by
  decide

/-- C7, counterexample.  A Patient-level read of a record whose
surgery_date is 2026-10-13, performed on 2026-10-12, yields
post_op_day equal to -1: the derived field is negative for a future
surgery date, refuting the never-negative claim. -/
theorem post_op_day_negative_cex :
    (readPatients todayEx 0 sysFuture).1.map PatientView.post_op_day = [-1]
    ∧ patientPostOpDay todayEx "2026-10-13" < 0 := by
  decide

/-- C7, amended.  The Patient-level read computes post_op_day as today
minus surgery_date without clamping (0 when the field is empty or fails
to parse), so it can be negative; the clamp at zero exists only in the
app-side calculate_post_op_day, which agrees with the read-side value
composed with max 0 on every input. -/
theorem post_op_day_clamp_only_in_app (today : Nat) (sd : String) :
    calculate_post_op_day today sd = max 0 (patientPostOpDay today sd) := by
  unfold calculate_post_op_day patientPostOpDay
  cases h : sd == "" with
  | true => simp [h]
  | false =>
    cases hp : parseDate sd with
    | some d => simp [h, hp]
    | none => simp [h, hp]

/-- C8, counterexample.  A report written with the symptom list containing
呼吸困難 is persisted as the JSON text, but an immediate read followed by
the records-page handling yields the empty container: the stored
serialization is discarded, not parsed back, so the structured field does
not round-trip. -/
theorem symptoms_roundtrip_cex :
    (mkReportRow d7 timeEx).symptoms = SymVal.str "[\"呼吸困難\"]"
    ∧ (readReports 0 (save_report d7 timeEx sysInit).2).1.map
        (fun r => renderSymptoms r.symptoms) = [[]]
    ∧ d7.symptoms = some ["呼吸困難"] := by
  decide

/-- C8, amended.  On write the symptoms collection is JSON-serialized into
the row; on read no parsing occurs — get_all_reports returns the stored
rows unchanged and the records page replaces every string-valued
symptoms cell, well-formed or malformed, by the empty container without
raising — so a written symptom list always reads back empty. -/
theorem symptoms_not_parsed_on_read (d : ReportData) (nw : Time) (st : SysState) (t : Nat) :
    (mkReportRow d nw).symptoms = SymVal.str (jsonEncodeList (d.symptoms.getD []))
    ∧ (readReports t (save_report d nw st).2).1 = st.store.reports ++ [mkReportRow d nw]
    ∧ renderSymptoms (mkReportRow d nw).symptoms = [] := by
  exact ⟨rfl, rfl, rfl⟩

/-- C9, confirmed.  Every write operation clears the cache before
returning: a read issued at any time right after save_report or
create_patient, and after a successful update_patient or handle_alert,
reflects the post-write worksheet contents whatever snapshot was cached
before and however young it was. -/
theorem writes_invalidate_cache (st1 st2 : SysState) (d : ReportData)
    (p : PatientData) (nw : Time) (rand : Nat → String)
    (pid rid handler : String) (ups : List (String × String)) (today t : Nat)
    (hu : (update_patient pid ups st1).1 = true)
    (hh : (handle_alert rid handler nw st2).1 = true) :
    (readReports t (save_report d nw st1).2).1 = st1.store.reports ++ [mkReportRow d nw]
    ∧ (readPatients today t (create_patient p nw rand st1).2).1
        = (create_patient p nw rand st1).2.store.patients.map (patientView today)
    ∧ (readPatients today t (update_patient pid ups st1).2).1
        = (update_patient pid ups st1).2.store.patients.map (patientView today)
    ∧ (readReports t (handle_alert rid handler nw st2).2).1
        = (handle_alert rid handler nw st2).2.store.reports := by
  refine ⟨rfl, rfl, ?_, ?_⟩
  · unfold update_patient at hu ⊢
    cases h : st1.store.patients.findIdx? (fun r => r.patient_id == pid) with
    | none => rw [h] at hu; simp at hu
    | some i => rfl
  · unfold handle_alert at hh ⊢
    cases h : st2.store.reports.findIdx? (fun r => r.report_id == rid) with
    | none => rw [h] at hh; simp at hh
    | some i => rfl

/-- C9, witness.  The cache-coherence theorem applied to a store holding
one patient and one report, with a successful update and a successful
alert handling. -/
theorem writes_invalidate_cache_witness :
    (update_patient "P1" [("status", "discharged")] sysP).1 = true
    ∧ (handle_alert "R20261012083000" "花花" timeEx sysR).1 = true
    ∧ ((readReports 0 (save_report d7 timeEx sysP).2).1
          = sysP.store.reports ++ [mkReportRow d7 timeEx]
       ∧ (readPatients todayEx 0 (create_patient pdEx timeEx randEx sysP).2).1
          = (create_patient pdEx timeEx randEx sysP).2.store.patients.map (patientView todayEx)
       ∧ (readPatients todayEx 0 (update_patient "P1" [("status", "discharged")] sysP).2).1
          = (update_patient "P1" [("status", "discharged")] sysP).2.store.patients.map
              (patientView todayEx)
       ∧ (readReports 0 (handle_alert "R20261012083000" "花花" timeEx sysR).2).1
          = (handle_alert "R20261012083000" "花花" timeEx sysR).2.store.reports) :=
  ⟨by decide, by decide,
   writes_invalidate_cache sysP sysR d7 pdEx timeEx randEx "P1" "R20261012083000" "花花"
     [("status", "discharged")] todayEx 0 (by decide) (by decide)⟩

/-- C10, confirmed.  create_patient never consults the patient_id supplied
in its input dictionary: its result is unchanged by that field, the id it
returns is the freshly generated one and is exactly the id persisted in
the appended row; and on a concrete registration the id the registration
page computes locally (last four phone digits plus month-day) differs
from the id actually persisted. -/
theorem create_patient_ignores_supplied_id :
    (∀ (pd : PatientData) (x : Option String) (nw : Time) (rand : Nat → String)
        (st : SysState),
      create_patient { pd with patient_id := x } nw rand st = create_patient pd nw rand st)
    ∧ (∀ (pd : PatientData) (nw : Time) (rand : Nat → String) (st : SysState),
      (create_patient pd nw rand st).1
        = some (generate_unique_patient_id (st.store.patients.map PatientRec.patient_id)
            (pd.phone.getD "") nw rand)
      ∧ (create_patient pd nw rand st).2.store.patients
        = st.store.patients
          ++ [mkPatientRow (generate_unique_patient_id
                (st.store.patients.map PatientRec.patient_id) (pd.phone.getD "") nw rand)
              pd nw])
    ∧ pdEx.patient_id = some (appLocalPatientId "0912345678" timeEx)
    ∧ appLocalPatientId "0912345678" timeEx ≠ (create_patient pdEx timeEx randEx sysInit).1.getD "" := by
  refine ⟨?_, ?_, by decide, by decide⟩
  · intro pd x nw rand st
    cases pd
    rfl
  · intro pd nw rand st
    exact ⟨rfl, rfl⟩

end AICare






